import Mathlib

/-!
# Verification of the `client-cache` single-key cache entry store

Shallow embedding of `src/store.ts` (class `ExternalStore<T>`) and the parts
of `src/types/index.ts` it relies on. Times (`Date.now()`) are natural
numbers of milliseconds. The backend (`Storage`) is an association list from
keys to stored strings. Caller-supplied `serialize`/`deserialize` and the
platform primitives (gzip compression, AES-GCM encryption, `JSON.stringify`
based hashing) are opaque parameters of the model; a primitive that can
throw is modelled as an `Option`-returning function. Thrown exceptions in
the store's own code are modelled with `Except`; every `onError` report is
collected in a `List Err` result component, so "reported exactly once" is a
statement about that list.
-/

namespace ClientCache

/-- The persisted record shape, `StoredData<T>` in `src/types/index.ts`:
`value`, `expiry: number | null`, `version`, `timestamp`, `hash?: string`
(an absent hash is `none`). -/
structure StoredData (T : Type) where
  value : T
  expiry : Option Nat
  version : String
  timestamp : Nat
  hash : Option String
  deriving Repr, DecidableEq

/-- The distinct `onError` reports issued by `ExternalStore`, one constructor
per `catch` block message in `src/store.ts`. -/
inductive Err where
  | compressionFailed
  | decompressionFailed
  | encryptionFailed
  | decryptionFailed
  | setStateFailed
  | asyncSnapshotFailed
  | itemProcessFailed (key : String)
  deriving Repr, DecidableEq

/-- Exceptions that can escape the decode section of `getAsyncSnapshot` up
to its surrounding `try`/`catch`: a throwing `deserialize`, or the explicit
`throw new Error("Data integrity check failed")`. -/
inductive LoadFault where
  | deserializeFailed
  | integrityFailed
  deriving Repr, DecidableEq

/-- Opaque platform primitives used by the codec stages. `none` models the
primitive throwing (bad base64, AES-GCM authentication failure, malformed
envelope, gzip error). Encryption includes its random IV in the produced
envelope string, so a deterministic function per write is adequate here. -/
structure Prims where
  compressPrim : String → Option String
  decompressPrim : String → Option String
  encryptPrim : String → Option String
  decryptPrim : String → Option String

/-- The resolved option set of a store instance
(`StoreOptions<T> & DefaultOptions`), after the defaulting performed in the
constructor. `computeHash` stands for the fixed `calculateHash` body
(base64 of the UTF-8 bytes of `JSON.stringify(value)`), opaque because it
depends on the runtime representation of `T`. -/
structure StoreOptions (T : Type) where
  key : String
  serialize : StoredData T → String
  deserialize : String → Option (StoredData T)
  initialValue : T
  ttl : Option Nat
  validateOnLoad : Bool
  compression : Bool
  encryptionKey : Option String
  maxSize : Nat
  staleWhileRevalidate : Nat
  computeHash : T → String

/-- `private readonly VERSION = "1.0.0"`. -/
def VERSION : String := "1.0.0"

/-- Mutable state of one `ExternalStore` instance together with the shared
backend contents: `memoryCache`, `currentValue`, and the backend key-value
pairs. -/
structure StoreState (T : Type) where
  memoryCache : Option (StoredData T)
  currentValue : T
  storage : List (String × String)
  deriving Repr, DecidableEq

/-- `storage.getItem(key)`: first binding of the key, `null` when absent. -/
def getItem (storage : List (String × String)) (k : String) : Option String :=
  match storage.find? (fun kv => kv.1 = k) with
  | some kv => some kv.2
  | none => none

/-- `storage.setItem(key, v)`: replace the binding in place, or append. -/
def setItem (storage : List (String × String)) (k v : String) :
    List (String × String) :=
  if (storage.find? (fun kv => kv.1 = k)).isSome then
    storage.map (fun kv => if kv.1 = k then (k, v) else kv)
  else
    storage ++ [(k, v)]

/-- `storage.removeItem(key)`. -/
def removeItem (storage : List (String × String)) (k : String) :
    List (String × String) :=
  storage.filter (fun kv => kv.1 ≠ k)

/-- `compressData`: pass-through when `options.compression` is off;
otherwise apply the gzip primitive, and on an internal failure report
`Compression failed` and fall back to the unmodified input. -/
def compressData {T : Type} (opts : StoreOptions T) (p : Prims)
    (data : String) : String × List Err :=
  if opts.compression then
    match p.compressPrim data with
    | some c => (c, [])
    | none => (data, [Err.compressionFailed])
  else (data, [])

/-- `decompressData`: pass-through when compression is off; otherwise
base64-decode and gunzip, reporting `Decompression failed` and returning
the input unchanged when the primitive throws. -/
def decompressData {T : Type} (opts : StoreOptions T) (p : Prims)
    (data : String) : String × List Err :=
  if opts.compression then
    match p.decompressPrim data with
    | some d => (d, [])
    | none => (data, [Err.decompressionFailed])
  else (data, [])

/-- `encryptData`: pass-through when no `encryptionKey` is configured;
otherwise AES-GCM encrypt, reporting `Encryption failed` and returning the
plaintext unchanged when the primitive throws. -/
def encryptData {T : Type} (opts : StoreOptions T) (p : Prims)
    (data : String) : String × List Err :=
  match opts.encryptionKey with
  | none => (data, [])
  | some _ =>
    match p.encryptPrim data with
    | some e => (e, [])
    | none => (data, [Err.encryptionFailed])

/-- `decryptData`: pass-through when no `encryptionKey` is configured;
otherwise parse the envelope and AES-GCM decrypt, reporting
`Decryption failed` and returning the raw stored string unchanged when
anything in the `try` block throws. -/
def decryptData {T : Type} (opts : StoreOptions T) (p : Prims)
    (data : String) : String × List Err :=
  match opts.encryptionKey with
  | none => (data, [])
  | some _ =>
    match p.decryptPrim data with
    | some d => (d, [])
    | none => (data, [Err.decryptionFailed])

/-- `validateDataSize`: `new Blob([data]).size <= maxSize`, the blob size
being the UTF-8 byte length of the string. -/
def validateDataSize {T : Type} (opts : StoreOptions T) (data : String) :
    Bool :=
  data.utf8ByteSize ≤ opts.maxSize

/-- The `StoredData` record built at the top of `setState`:
`expiry = this.options.ttl ? Date.now() + this.options.ttl : null` (a
missing or zero `ttl` is falsy), `version = VERSION`, `timestamp = now`,
and `hash = this.calculateHash(value)`, computed unconditionally. -/
def buildStoredData {T : Type} (opts : StoreOptions T) (now : Nat) (v : T) :
    StoredData T :=
  { value := v
    expiry :=
      match opts.ttl with
      | none => none
      | some t => if t = 0 then none else some (now + t)
    version := VERSION
    timestamp := now
    hash := some (opts.computeHash v) }

/-- `setState(value)`: build the entry, serialize, check the size limit
(throwing into the surrounding `catch`, which reports `Failed to set state`
once and leaves all state untouched), then compress, encrypt, write the
backend, replace the memory shadow and the current value in one synchronous
block. The returned list collects every `onError` report of the call. -/
def setState {T : Type} (opts : StoreOptions T) (p : Prims) (now : Nat)
    (st : StoreState T) (v : T) : StoreState T × List Err :=
  let data := buildStoredData opts now v
  let serialized := opts.serialize data
  if validateDataSize opts serialized then
    let c := compressData opts p serialized
    let e := encryptData opts p c.1
    ({ memoryCache := some data
       currentValue := v
       storage := setItem st.storage opts.key e.1 }, c.2 ++ e.2)
  else
    (st, [Err.setStateFailed])

/-- Truthiness of `parsed.hash` in the guard
`if (parsed.hash && calculatedHash !== parsed.hash)`: an absent hash and
the empty string are both falsy. -/
def hashTruthy : Option String → Bool
  | none => false
  | some s => s ≠ ""

/-- The condition under which `getAsyncSnapshot` throws
`Data integrity check failed`: validation enabled, a truthy stored hash,
and a recomputed digest that differs from it. -/
def integrityFails {T : Type} (opts : StoreOptions T) (parsed : StoredData T) :
    Bool :=
  opts.validateOnLoad &&
    (match parsed.hash with
     | none => false
     | some h => h ≠ "" && opts.computeHash parsed.value ≠ h)

/-- The memory-cache guard `if (!expiry || Date.now() < expiry)`: a `null`
(or zero, falsy) expiry, or one still in the future, makes the shadow
servable. -/
def cacheServable (now : Nat) : Option Nat → Bool
  | none => true
  | some e => e = 0 || now < e

/-- The freshness policy applied to a decoded entry (`store.ts` lines
144-158): `expiry === null` or in the future adopts the entry as the memory
shadow and returns its value; past expiry still within the (truthy)
`staleWhileRevalidate` window returns the stale value without touching
state; otherwise the backend entry is removed, the shadow cleared, and the
initial value returned. -/
def applyFreshness {T : Type} (opts : StoreOptions T) (now : Nat)
    (st : StoreState T) (parsed : StoredData T) : T × StoreState T :=
  match parsed.expiry with
  | none => (parsed.value, { st with memoryCache := some parsed })
  | some e =>
    if now < e then
      (parsed.value, { st with memoryCache := some parsed })
    else if opts.staleWhileRevalidate ≠ 0 ∧
        now < e + opts.staleWhileRevalidate then
      (parsed.value, st)
    else
      (opts.initialValue,
        { st with memoryCache := none
                  storage := removeItem st.storage opts.key })

/-- The body of `getAsyncSnapshot`'s `try` block once the memory shadow was
not servable: read the backend, decrypt, decompress, deserialize, run the
integrity check, then apply the freshness policy. An `Except.error` is an
exception travelling to the surrounding `catch`; the list collects the
stage-local `onError` reports already issued. -/
def loadFromStorage {T : Type} (opts : StoreOptions T) (p : Prims)
    (now : Nat) (st : StoreState T) :
    Except LoadFault (T × StoreState T) × List Err :=
  match getItem st.storage opts.key with
  | none => (Except.ok (opts.initialValue, st), [])
  | some stored =>
    let d1 := decryptData opts p stored
    let d2 := decompressData opts p d1.1
    match opts.deserialize d2.1 with
    | none => (Except.error LoadFault.deserializeFailed, d1.2 ++ d2.2)
    | some parsed =>
      if integrityFails opts parsed then
        (Except.error LoadFault.integrityFailed, d1.2 ++ d2.2)
      else
        (Except.ok (applyFreshness opts now st parsed), d1.2 ++ d2.2)

/-- The whole `try` block of `getAsyncSnapshot`: serve a servable memory
shadow without touching the backend, otherwise fall through (shadow left in
place) to the backend path. -/
def getAsyncSnapshotBody {T : Type} (opts : StoreOptions T) (p : Prims)
    (now : Nat) (st : StoreState T) :
    Except LoadFault (T × StoreState T) × List Err :=
  match st.memoryCache with
  | some mc =>
    if cacheServable now mc.expiry then (Except.ok (mc.value, st), [])
    else loadFromStorage opts p now st
  | none => loadFromStorage opts p now st

/-- `getAsyncSnapshot`: the `try` body with its `catch`, which reports
`Failed to get async snapshot` once and resolves to `initialValue` with
the instance state unchanged. The result is
(resolved value, state afterwards, `onError` reports). -/
def getAsyncSnapshot {T : Type} (opts : StoreOptions T) (p : Prims)
    (now : Nat) (st : StoreState T) : T × StoreState T × List Err :=
  match getAsyncSnapshotBody opts p now st with
  | (Except.ok (v, st'), errs) => (v, st', errs)
  | (Except.error _, errs) =>
    (opts.initialValue, st, errs ++ [Err.asyncSnapshotFailed])

/-- `getSnapshot()`: the synchronous read, returning `currentValue`. -/
def getSnapshot {T : Type} (st : StoreState T) : T :=
  st.currentValue

/-- `handleStorageEvent(event)`: on a notification for the same backend and
this store's key, drop the memory shadow and notify subscribers (the `Bool`
records whether `notifySubscribers` ran). Nothing else changes; in
particular `currentValue` is not updated and no reload is scheduled. -/
def handleStorageEvent {T : Type} (opts : StoreOptions T)
    (st : StoreState T) (eventKey : Option String) (sameArea : Bool) :
    StoreState T × Bool :=
  if sameArea ∧ eventKey = some opts.key then
    ({ st with memoryCache := none }, true)
  else (st, false)

/-- `calculateStorageSize()`: sum of the blob sizes of all truthy backend
values (`if (value)` skips empty strings). -/
def calculateStorageSize (storage : List (String × String)) : Nat :=
  storage.foldl
    (fun acc kv => if kv.2 ≠ "" then acc + kv.2.utf8ByteSize else acc) 0

/-- The first pass of `cleanupExpiredItems`: the keys collected into
`keysToRemove`. A key is collected when its stored item is truthy,
deserializes without throwing (the raw item, with no decrypt or decompress
step), and has a truthy `expiry` with `now > data.expiry`. A throwing
`deserialize` is reported per item and the key is skipped. -/
def sweepKeysToRemove {T : Type} (opts : StoreOptions T) (now : Nat)
    (storage : List (String × String)) : List String :=
  storage.filterMap (fun kv =>
    if kv.2 = "" then none
    else
      match opts.deserialize kv.2 with
      | none => none
      | some d =>
        match d.expiry with
        | none => none
        | some e => if e ≠ 0 ∧ e < now then some kv.1 else none)

/-- Result of a sweep: the state afterwards, the keys removed, the
`onError` reports, and whether this store's own subscribers were
notified (because its own key was among the removed ones). -/
structure SweepResult (T : Type) where
  state : StoreState T
  removed : List String
  errs : List Err
  notifiedSelf : Bool
  deriving Repr

/-- `cleanupExpiredItems()`: collect the expired keys, remove each from the
backend, and when this store's own key was removed also clear the memory
shadow and notify subscribers. -/
def cleanupExpiredItems {T : Type} (opts : StoreOptions T) (now : Nat)
    (st : StoreState T) : SweepResult T :=
  let ks := sweepKeysToRemove opts now st.storage
  let errs := st.storage.filterMap (fun kv =>
    if kv.2 ≠ "" ∧ (opts.deserialize kv.2).isNone then
      some (Err.itemProcessFailed kv.1)
    else none)
  let storage' := st.storage.filter (fun kv => kv.1 ∉ ks)
  if opts.key ∈ ks then
    ⟨{ st with storage := storage', memoryCache := none }, ks, errs, true⟩
  else
    ⟨{ st with storage := storage' }, ks, errs, false⟩

/-- `handleCleanupEvent(event)`: on a notification for the same backend,
run the expired-items sweep exactly when the aggregate backend size
exceeds `maxSize`; otherwise do nothing. -/
def handleCleanupEvent {T : Type} (opts : StoreOptions T) (now : Nat)
    (st : StoreState T) (sameArea : Bool) : SweepResult T :=
  if sameArea ∧ calculateStorageSize st.storage > opts.maxSize then
    cleanupExpiredItems opts now st
  else
    ⟨st, [], [], false⟩

/-- The write half of the codec pipeline as used by `setState`:
serialize, then `compressData`, then `encryptData`. -/
def encodeEntry {T : Type} (opts : StoreOptions T) (p : Prims)
    (d : StoredData T) : String × List Err :=
  let serialized := opts.serialize d
  let c := compressData opts p serialized
  let e := encryptData opts p c.1
  (e.1, c.2 ++ e.2)

/-- The read half of the codec pipeline as used by `getAsyncSnapshot`:
`decryptData`, then `decompressData`, then deserialize. -/
def decodeEntry {T : Type} (opts : StoreOptions T) (p : Prims)
    (s : String) : Option (StoredData T) × List Err :=
  let d1 := decryptData opts p s
  let d2 := decompressData opts p d1.1
  (opts.deserialize d2.1, d1.2 ++ d2.2)

/-- One synchronous segment of an asynchronous operation: the state
transformation it performs on the instance between two suspension points.
The JavaScript event loop runs each such segment atomically. -/
def Seg (T : Type) : Type := StoreState T → StoreState T

/-- The single synchronous block at the end of a successful `setState`
(no `await` separates `setItem`, the shadow update and the `currentValue`
update): write the encoded entry, replace the memory shadow, replace the
current value. Its payload was computed from `(now, v)` alone before any
suspension. -/
def setStateCommit {T : Type} (opts : StoreOptions T) (p : Prims)
    (now : Nat) (v : T) : Seg T := fun st =>
  { memoryCache := some (buildStoredData opts now v)
    currentValue := v
    storage :=
      setItem st.storage opts.key
        (encodeEntry opts p (buildStoredData opts now v)).1 }

/-- `setState` cut at its suspension points (`await compressData`,
`await encryptData`): the segment before the first await and the segment
between the awaits touch no instance state (they only build local data and
run the size check), and the final segment is the commit block. An
oversize write has only the first segment, which mutates nothing. -/
def setStateSegs {T : Type} (opts : StoreOptions T) (p : Prims) (now : Nat)
    (v : T) : List (Seg T) :=
  if validateDataSize opts (opts.serialize (buildStoredData opts now v)) then
    [id, id, setStateCommit opts p now v]
  else
    [id]

/-- Run a sequence of synchronous segments in order. -/
def runSegs {T : Type} (l : List (Seg T)) (st : StoreState T) : StoreState T :=
  l.foldl (fun s f => f s) st

/-- All order-preserving merges of two segment sequences: the schedules the
cooperative event loop can produce for two overlapping operations. -/
def interleavings {α : Type} : List α → List α → List (List α)
  | [], ys => [ys]
  | x :: xs, [] => [x :: xs]
  | x :: xs, y :: ys =>
    (interleavings xs (y :: ys)).map (fun l => x :: l) ++
      (interleavings (x :: xs) ys).map (fun l => y :: l)

/-- A sample cache entry over `T = Nat`, used to instantiate theorems with
hypotheses at concrete inputs. -/
def sampleEntry : StoredData Nat :=
  { value := 42, expiry := none, version := VERSION, timestamp := 0,
    hash := none }

/-- Primitives that always succeed and change nothing: the identity
compression and encryption schemes. -/
def idPrims : Prims :=
  { compressPrim := fun s => some s
    decompressPrim := fun s => some s
    encryptPrim := fun s => some s
    decryptPrim := fun s => some s }

/-- Options whose codec pipeline has both optional stages enabled and whose
serializer maps every entry to `"s"`, decoded back to `sampleEntry`. -/
def roundtripOpts : StoreOptions Nat :=
  { key := "k"
    serialize := fun _ => "s"
    deserialize := fun _ => some sampleEntry
    initialValue := 0
    ttl := none
    validateOnLoad := true
    compression := true
    encryptionKey := some "secret"
    maxSize := 100
    staleWhileRevalidate := 0
    computeHash := fun _ => "h" }

/-- Options with a 2-byte `maxSize` and a serializer producing 3 bytes, so
every write is oversize. -/
def oversizeOpts : StoreOptions Nat :=
  { key := "k"
    serialize := fun _ => "abc"
    deserialize := fun _ => none
    initialValue := 0
    ttl := none
    validateOnLoad := true
    compression := false
    encryptionKey := none
    maxSize := 2
    staleWhileRevalidate := 0
    computeHash := fun _ => "h" }

/-- A store state holding no shadow, current value `0`, empty backend. -/
def emptyState : StoreState Nat :=
  { memoryCache := none, currentValue := 0, storage := [] }

/-- Options used for exercising the load path with a plain (no compression,
no encryption) pipeline: the payload `"fresh"` decodes to `sampleEntry`. -/
def loadOpts : StoreOptions Nat :=
  { key := "k"
    serialize := fun _ => "fresh"
    deserialize := fun s => if s = "fresh" then some sampleEntry else none
    initialValue := 0
    ttl := none
    validateOnLoad := true
    compression := false
    encryptionKey := none
    maxSize := 100
    staleWhileRevalidate := 0
    computeHash := fun _ => "h" }

/-- A state whose backend holds `"fresh"` under the store's key and whose
memory shadow is empty. -/
def loadState : StoreState Nat :=
  { memoryCache := none, currentValue := 0, storage := [("k", "fresh")] }

/-- Primitives that always throw: every compression and cryptography call
fails. -/
def failPrims : Prims :=
  { compressPrim := fun _ => none
    decompressPrim := fun _ => none
    encryptPrim := fun _ => none
    decryptPrim := fun _ => none }

/-- Options with compression enabled whose stored payload `"raw"` happens
to deserialize directly (as after a decompression fallback). -/
def c4Opts : StoreOptions Nat :=
  { key := "k"
    serialize := fun _ => "raw"
    deserialize := fun s => if s = "raw" then some sampleEntry else none
    initialValue := 0
    ttl := none
    validateOnLoad := true
    compression := true
    encryptionKey := none
    maxSize := 100
    staleWhileRevalidate := 0
    computeHash := fun _ => "h" }

/-- Backend holding `"raw"` under the key, memory shadow empty. -/
def c4State : StoreState Nat :=
  { memoryCache := none, currentValue := 0, storage := [("k", "raw")] }

/-- Options whose deserializer always throws, behind an encryption key. -/
def c4WitnessOpts : StoreOptions Nat :=
  { key := "w"
    serialize := fun _ => "x"
    deserialize := fun _ => none
    initialValue := 9
    ttl := none
    validateOnLoad := true
    compression := false
    encryptionKey := none
    maxSize := 100
    staleWhileRevalidate := 0
    computeHash := fun _ => "h" }

/-- Backend holding an undecodable payload for `c4WitnessOpts`. -/
def c4WitnessState : StoreState Nat :=
  { memoryCache := none, currentValue := 9, storage := [("w", "junk")] }

/-- An entry whose expiry `10` is long past at time `100`. -/
def expiredEntry : StoredData Nat :=
  { value := 7, expiry := some 10, version := VERSION, timestamp := 0,
    hash := none }

/-- Options for the sweep scenario: `maxSize = 0` so any notification
triggers the sweep, and only the payload `"old"` deserializes (to
`expiredEntry`). -/
def sweepOpts : StoreOptions Nat :=
  { key := "k"
    serialize := fun _ => "old"
    deserialize := fun s => if s = "old" then some expiredEntry else none
    initialValue := 0
    ttl := none
    validateOnLoad := true
    compression := false
    encryptionKey := none
    maxSize := 0
    staleWhileRevalidate := 0
    computeHash := fun _ => "h" }

/-- Backend with one expired entry under `"a"` and one undecodable entry
under `"b"`. -/
def sweepState : StoreState Nat :=
  { memoryCache := none, currentValue := 0,
    storage := [("a", "old"), ("b", "live")] }

/-- Options shared by the two stores of the cross-tab scenario: entries
serialize to the decimal form of their value, and `"42"` decodes back to
the corresponding entry. -/
def crossTabOpts : StoreOptions Nat :=
  { key := "k"
    serialize := fun d => toString d.value
    deserialize := fun s =>
      if s = "42" then
        some { value := 42, expiry := none, version := VERSION,
               timestamp := 0, hash := some "h" }
      else none
    initialValue := 0
    ttl := none
    validateOnLoad := true
    compression := false
    encryptionKey := none
    maxSize := 100
    staleWhileRevalidate := 0
    computeHash := fun _ => "h" }

/-- Store B's state after store A wrote `42` to the shared backend: B's
shadow is empty, its current value is still the initial `0`, and the shared
backend holds A's write. -/
def crossTabStateB : StoreState Nat :=
  { memoryCache := none, currentValue := 0,
    storage := (setState crossTabOpts idPrims 0
      { memoryCache := none, currentValue := 0, storage := [] } 42).1.storage }

/-- Options with an encryption secret whose stored payload `"plain"`
deserializes directly to the never-expiring `sampleEntry` — the situation
of a value written before encryption was switched on. -/
def c7Opts : StoreOptions Nat :=
  { key := "k"
    serialize := fun _ => "plain"
    deserialize := fun s => if s = "plain" then some sampleEntry else none
    initialValue := 0
    ttl := none
    validateOnLoad := true
    compression := false
    encryptionKey := some "secret"
    maxSize := 100
    staleWhileRevalidate := 0
    computeHash := fun _ => "h" }

/-- Backend holding the plaintext payload `"plain"` under the key. -/
def c7State : StoreState Nat :=
  { memoryCache := none, currentValue := 0, storage := [("k", "plain")] }

/-- Options with an encryption secret and a deserializer that rejects the
ciphertext envelope `"envelope"`. -/
def c7WitnessOpts : StoreOptions Nat :=
  { key := "c"
    serialize := fun _ => "y"
    deserialize := fun _ => none
    initialValue := 5
    ttl := none
    validateOnLoad := true
    compression := false
    encryptionKey := some "s3"
    maxSize := 100
    staleWhileRevalidate := 0
    computeHash := fun _ => "h" }

/-- Backend holding an undecryptable envelope for `c7WitnessOpts`. -/
def c7WitnessState : StoreState Nat :=
  { memoryCache := none, currentValue := 5, storage := [("c", "envelope")] }

/-- Options with integrity validation switched off and a hash function
tagging the value. -/
def c8Opts : StoreOptions Nat :=
  { key := "k"
    serialize := fun _ => "s"
    deserialize := fun _ => none
    initialValue := 0
    ttl := none
    validateOnLoad := false
    compression := false
    encryptionKey := none
    maxSize := 100
    staleWhileRevalidate := 0
    computeHash := fun n => "H" ++ toString n }

/-- C1: for every entry and every combination of the optional stages (the
compression flag and the encryption key of `opts` are arbitrary), encoding
on write (serialize, compress, encrypt) and decoding on read (decrypt,
decompress, deserialize) under the same configuration returns the original
entry, provided the caller-supplied serializer pair and the platform
primitives are themselves inverses. -/
theorem c1_pipeline_roundtrip {T : Type} (opts : StoreOptions T) (p : Prims)
    (d : StoredData T)
    (hser : opts.deserialize (opts.serialize d) = some d)
    (hcomp : ∀ s, ∃ c, p.compressPrim s = some c ∧ p.decompressPrim c = some s)
    (henc : ∀ s, ∃ c, p.encryptPrim s = some c ∧ p.decryptPrim c = some s) :
    (decodeEntry opts p (encodeEntry opts p d).1).1 = some d := by
  have hdec : ∀ s : String,
      (decryptData opts p (encryptData opts p s).1).1 = s := by
    intro s
    unfold encryptData decryptData
    cases hk : opts.encryptionKey with
    | none => simp
    | some k =>
      obtain ⟨c, h1, h2⟩ := henc s
      simp [h1, h2]
  have hdecomp : ∀ s : String,
      (decompressData opts p (compressData opts p s).1).1 = s := by
    intro s
    unfold compressData decompressData
    cases hb : opts.compression with
    | false => simp
    | true =>
      obtain ⟨c, h1, h2⟩ := hcomp s
      simp [h1, h2]
  unfold decodeEntry encodeEntry
  simp [hdec, hdecomp, hser]

/-- Witness for C1: the round-trip at `sampleEntry` with both stages
enabled and the identity primitives. -/
theorem c1_pipeline_roundtrip_witness :
    (decodeEntry roundtripOpts idPrims
      (encodeEntry roundtripOpts idPrims sampleEntry).1).1 = some sampleEntry :=
  c1_pipeline_roundtrip roundtripOpts idPrims sampleEntry rfl
    (fun s => ⟨s, rfl, rfl⟩) (fun s => ⟨s, rfl, rfl⟩)

/-- C2: a `setState` whose serialized payload fails the size check reports
`Failed to set state` through the error callback exactly once and returns
with the whole instance state — backend contents, memory shadow and
`getSnapshot()` — unchanged. -/
theorem c2_oversize_write_aborted {T : Type} (opts : StoreOptions T)
    (p : Prims) (now : Nat) (st : StoreState T) (v : T)
    (h : validateDataSize opts (opts.serialize (buildStoredData opts now v))
      = false) :
    setState opts p now st v = (st, [Err.setStateFailed]) ∧
      getSnapshot (setState opts p now st v).1 = getSnapshot st := by
  have h1 : setState opts p now st v = (st, [Err.setStateFailed]) := by
    unfold setState
    simp [h]
  exact ⟨h1, by rw [h1]⟩

/-- Witness for C2: the oversize write at `oversizeOpts` leaves the empty
state untouched and reports once. -/
theorem c2_oversize_write_aborted_witness :
    setState oversizeOpts idPrims 0 emptyState 7
        = (emptyState, [Err.setStateFailed]) ∧
      getSnapshot (setState oversizeOpts idPrims 0 emptyState 7).1
        = getSnapshot emptyState :=
  c2_oversize_write_aborted oversizeOpts idPrims 0 emptyState 7 (by decide)

/-- C3: for every decoded backend entry (memory shadow absent, backend item
present, decrypt and decompress and deserialize succeeding, integrity check
passing), the load applies the freshness policy: a `null` or future expiry
adopts the entry as the memory shadow and returns its value; a past expiry
still inside the `staleWhileRevalidate` window returns the stale value with
state untouched; a past expiry beyond the window removes the backend entry,
clears the shadow, and returns the initial value. -/
theorem c3_freshness_policy {T : Type} (opts : StoreOptions T) (p : Prims)
    (now : Nat) (st : StoreState T) (stored d1 d2 : String)
    (e1 e2 : List Err) (parsed : StoredData T)
    (hmc : st.memoryCache = none)
    (hget : getItem st.storage opts.key = some stored)
    (h1 : decryptData opts p stored = (d1, e1))
    (h2 : decompressData opts p d1 = (d2, e2))
    (h3 : opts.deserialize d2 = some parsed)
    (h4 : integrityFails opts parsed = false) :
    ((parsed.expiry = none ∨ ∃ e, parsed.expiry = some e ∧ now < e) →
        getAsyncSnapshot opts p now st =
          (parsed.value, { st with memoryCache := some parsed }, e1 ++ e2)) ∧
      (∀ e, parsed.expiry = some e → e ≤ now →
          now < e + opts.staleWhileRevalidate →
          getAsyncSnapshot opts p now st = (parsed.value, st, e1 ++ e2)) ∧
      (∀ e, parsed.expiry = some e → e + opts.staleWhileRevalidate ≤ now →
          getAsyncSnapshot opts p now st =
            (opts.initialValue,
              { st with memoryCache := none
                        storage := removeItem st.storage opts.key },
              e1 ++ e2)) := by
  have hbody : getAsyncSnapshotBody opts p now st =
      (Except.ok (applyFreshness opts now st parsed), e1 ++ e2) := by
    unfold getAsyncSnapshotBody loadFromStorage
    rw [hmc, hget]
    simp [h1, h2, h3, h4]
  refine ⟨?_, ?_, ?_⟩
  · rintro (hexp | ⟨e, hexp, hlt⟩)
    · unfold getAsyncSnapshot
      rw [hbody]
      unfold applyFreshness
      rw [hexp]
    · unfold getAsyncSnapshot
      rw [hbody]
      unfold applyFreshness
      rw [hexp]
      simp [hlt]
  · intro e hexp hle hwin
    have hswr : opts.staleWhileRevalidate ≠ 0 := by
      intro h0
      rw [h0, Nat.add_zero] at hwin
      exact absurd hwin (Nat.not_lt.mpr hle)
    unfold getAsyncSnapshot
    rw [hbody]
    unfold applyFreshness
    rw [hexp]
    simp [Nat.not_lt.mpr hle, hswr, hwin]
  · intro e hexp hbeyond
    have hle : e ≤ now := le_trans (Nat.le_add_right e _) hbeyond
    unfold getAsyncSnapshot
    rw [hbody]
    unfold applyFreshness
    rw [hexp]
    simp [Nat.not_lt.mpr hle, Nat.not_lt.mpr hbeyond]

/-- Witness for C3: loading the never-expiring `sampleEntry` from the
backend adopts it as the memory shadow and returns `42`. -/
theorem c3_freshness_policy_witness :
    getAsyncSnapshot loadOpts idPrims 5 loadState =
      (42, { loadState with memoryCache := some sampleEntry }, []) := by
  have h := c3_freshness_policy loadOpts idPrims 5 loadState "fresh" "fresh"
    "fresh" [] [] sampleEntry rfl (by decide) rfl rfl rfl (by decide)
  exact h.1 (Or.inl rfl)

/-- C4 counterexample: with compression enabled and a payload on which the
gzip primitive throws, the load catches and reports the decompression
exception but then resolves to the stored payload's deserialized value
`42`, not to the configured default `0` — refuting "any exception ... is
caught, reported once ..., and the operation resolves to the configured
default value". -/
theorem c4_decompression_fault_not_default :
    getAsyncSnapshot c4Opts failPrims 3 c4State =
        (42, { c4State with memoryCache := some sampleEntry },
          [Err.decompressionFailed]) ∧
      (42 : Nat) ≠ c4Opts.initialValue := by
  constructor
  · rfl
  · decide

/-- C4 (amended): the load never rejects — every exception that reaches the
load boundary (a throwing deserialize or a failed integrity check) is
caught, reported by appending exactly one `Failed to get async snapshot`
callback invocation, and resolves the load to the configured default with
the instance state unchanged; a decompression exception is reported where
it occurs and falls back to passing the payload through unmodified rather
than forcing the default. -/
theorem c4_load_never_rejects {T : Type} (opts : StoreOptions T) (p : Prims)
    (now : Nat) (st : StoreState T) :
    (∀ f errs, getAsyncSnapshotBody opts p now st = (Except.error f, errs) →
        getAsyncSnapshot opts p now st =
          (opts.initialValue, st, errs ++ [Err.asyncSnapshotFailed])) ∧
      (∀ s, opts.compression = true → p.decompressPrim s = none →
        decompressData opts p s = (s, [Err.decompressionFailed])) := by
  constructor
  · intro f errs h
    unfold getAsyncSnapshot
    rw [h]
  · intro s hc hp
    unfold decompressData
    rw [hc, hp]
    simp

/-- Witness for C4: a throwing deserialize is caught at the load boundary,
one report is appended, and the load resolves to the default `9` with the
state unchanged. -/
theorem c4_load_never_rejects_witness :
    getAsyncSnapshot c4WitnessOpts idPrims 0 c4WitnessState =
      (9, c4WitnessState, [] ++ [Err.asyncSnapshotFailed]) :=
  (c4_load_never_rejects c4WitnessOpts idPrims 0 c4WitnessState).1
    LoadFault.deserializeFailed [] (by rfl)

/-- C5: a key removed by the quota sweep always came from a backend pair
whose item is truthy, deserializes without throwing, and carries a truthy
expiry strictly in the past — no entry with a `null` expiry, a future
expiry, or an undecodable payload is ever deleted, whatever the aggregate
size. -/
theorem c5_sweep_removes_only_expired {T : Type} (opts : StoreOptions T)
    (now : Nat) (st : StoreState T) (sameArea : Bool) (k : String)
    (hk : k ∈ (handleCleanupEvent opts now st sameArea).removed) :
    ∃ item d e, (k, item) ∈ st.storage ∧ item ≠ "" ∧
      opts.deserialize item = some d ∧ d.expiry = some e ∧ e ≠ 0 ∧
      e < now := by
  unfold handleCleanupEvent at hk
  split at hk
  case isTrue =>
    have hk' : k ∈ sweepKeysToRemove opts now st.storage := by
      by_cases hkey : opts.key ∈ sweepKeysToRemove opts now st.storage
      · simpa [cleanupExpiredItems, hkey] using hk
      · simpa [cleanupExpiredItems, hkey] using hk
    unfold sweepKeysToRemove at hk'
    rw [List.mem_filterMap] at hk'
    obtain ⟨⟨k1, item⟩, hmem, hf⟩ := hk'
    simp only at hf
    split at hf
    · exact absurd hf (by simp)
    case isFalse hne =>
      split at hf
      case h_1 => exact absurd hf (by simp)
      case h_2 d hdes =>
        split at hf
        case h_1 => exact absurd hf (by simp)
        case h_2 e hexp =>
          split at hf
          case isTrue hcond =>
            have hk1 : k1 = k := by
              simpa using hf
            exact ⟨item, d, e, by rw [← hk1]; exact hmem, hne, hdes,
              hexp, hcond.1, hcond.2⟩
          case isFalse => exact absurd hf (by simp)
  case isFalse =>
    simp at hk

/-- Witness for C5: the key `"a"`, removed by the sweep at time `100`,
indeed held a decodable entry with truthy expiry `10 < 100`. -/
theorem c5_sweep_removes_only_expired_witness :
    ∃ item d e, ("a", item) ∈ sweepState.storage ∧ item ≠ "" ∧
      sweepOpts.deserialize item = some d ∧ d.expiry = some e ∧ e ≠ 0 ∧
      e < 100 :=
  c5_sweep_removes_only_expired sweepOpts 100 sweepState true "a" (by decide)

/-- C6: at the failing input, store A's `setState 42` places a payload
decoding to `42` in the shared backend and B's storage-event handler for
its own key discards the shadow and notifies subscribers — but B's next
read still returns the stale `0`, because `handleStorageEvent` never
updates `currentValue` and nothing ever calls the async load again after
construction. The claimed `getSnapshot() == X` after the notification does
not hold. -/
theorem c6_snapshot_stale_after_notification :
    crossTabStateB.storage = [("k", "42")] ∧
      ((decodeEntry crossTabOpts idPrims "42").1.map StoredData.value)
        = some 42 ∧
      handleStorageEvent crossTabOpts crossTabStateB (some "k") true
        = ({ crossTabStateB with memoryCache := none }, true) ∧
      getSnapshot (handleStorageEvent crossTabOpts crossTabStateB
        (some "k") true).1 = 0 ∧
      (0 : Nat) ≠ 42 := by
  refine ⟨by rfl, by rfl, by rfl, by rfl, by decide⟩

/-- C7 counterexample: the stored payload `"plain"` fails to decrypt under
the configured secret (AES-GCM rejects it), the failure is reported — yet
the load resolves to the payload's deserialized value `42`, not to the
configured default `0`: decryption does not fail closed, it falls back to
passing the raw payload down the pipeline. -/
theorem c7_decryption_failure_not_default :
    getAsyncSnapshot c7Opts failPrims 3 c7State =
        (42, { c7State with memoryCache := some sampleEntry },
          [Err.decryptionFailed]) ∧
      (42 : Nat) ≠ c7Opts.initialValue := by
  constructor
  · rfl
  · decide

/-- C7 (amended): a decryption failure is reported through the error
callback and the raw stored payload is passed on down the pipeline; the
exception never escapes the load, and when the fallback payload does not
deserialize (the case for a genuine ciphertext envelope) the load resolves
to the caller's configured default value with the instance state
unchanged. -/
theorem c7_decryption_failure_reported {T : Type} (opts : StoreOptions T)
    (p : Prims) (now : Nat) (st : StoreState T) (stored secret : String)
    (hmc : st.memoryCache = none)
    (hget : getItem st.storage opts.key = some stored)
    (hkey : opts.encryptionKey = some secret)
    (hfail : p.decryptPrim stored = none)
    (hcomp : opts.compression = false)
    (hdes : opts.deserialize stored = none) :
    getAsyncSnapshot opts p now st =
      (opts.initialValue, st,
        [Err.decryptionFailed, Err.asyncSnapshotFailed]) := by
  have hd1 : decryptData opts p stored = (stored, [Err.decryptionFailed]) := by
    unfold decryptData
    rw [hkey, hfail]
  have hd2 : decompressData opts p stored = (stored, []) := by
    unfold decompressData
    rw [hcomp]
    simp
  unfold getAsyncSnapshot getAsyncSnapshotBody loadFromStorage
  rw [hmc, hget]
  simp [hd1, hd2, hdes]

/-- Witness for C7 (amended): the failed decryption of `"envelope"` is
reported and the load resolves to the default `5` with state unchanged. -/
theorem c7_decryption_failure_reported_witness :
    getAsyncSnapshot c7WitnessOpts failPrims 0 c7WitnessState =
      (5, c7WitnessState, [Err.decryptionFailed, Err.asyncSnapshotFailed]) :=
  c7_decryption_failure_reported c7WitnessOpts failPrims 0 c7WitnessState
    "envelope" "s3" rfl (by rfl) rfl rfl rfl rfl

/-- C8 counterexample: with `validateOnLoad = false`, the entry produced by
`setState 7` still carries `hash = some "H7"` — the persisted entry's hash
field is not conditional on integrity validation being enabled. -/
theorem c8_hash_present_without_validation :
    c8Opts.validateOnLoad = false ∧
      (setState c8Opts idPrims 3 emptyState 7).1.memoryCache
        = some { value := 7, expiry := none, version := VERSION,
                 timestamp := 3, hash := some "H7" } := by
  constructor
  · rfl
  · rfl

/-- C8 (amended): every successful `setState` persists an entry whose
`hash` field is always present — `calculateHash(value)` is computed and
stored unconditionally, whatever the `validateOnLoad` flag. -/
theorem c8_hash_always_present {T : Type} (opts : StoreOptions T)
    (p : Prims) (now : Nat) (st : StoreState T) (v : T)
    (h : validateDataSize opts (opts.serialize (buildStoredData opts now v))
      = true) :
    (setState opts p now st v).1.memoryCache
        = some (buildStoredData opts now v) ∧
      (buildStoredData opts now v).hash = some (opts.computeHash v) := by
  constructor
  · unfold setState
    simp [h]
  · rfl

/-- Witness for C8 (amended): the in-range write of `7` at time `3` stores
the entry with its hash present. -/
theorem c8_hash_always_present_witness :
    (setState c8Opts idPrims 3 emptyState 7).1.memoryCache
        = some (buildStoredData c8Opts 3 7) ∧
      (buildStoredData c8Opts 3 7).hash = some (c8Opts.computeHash 7) :=
  c8_hash_always_present c8Opts idPrims 3 emptyState 7 (by decide)

/-- Reading back the key just written: `setItem` followed by `getItem` on
the same key returns the written value. -/
theorem getItem_setItem (s : List (String × String)) (k v : String) :
    getItem (setItem s k v) k = some v := by
  unfold getItem setItem
  by_cases h : (s.find? (fun kv => kv.1 = k)).isSome
  · rw [if_pos h]
    induction s with
    | nil => simp at h
    | cons hd tl ih =>
      by_cases hh : hd.1 = k
      · simp [List.find?_cons, hh]
      · rw [List.find?_cons_of_neg _ (by simpa using hh)] at h
        simpa [List.find?_cons, hh] using ih h
  · rw [if_neg h]
    rw [Option.not_isSome_iff_eq_none] at h
    rw [List.find?_append, h]
    simp

/-- The commit block of a successful `setState` establishes the full
written state: snapshot, memory shadow and the backend entry all reflect
the single write. -/
theorem setStateCommit_props {T : Type} (opts : StoreOptions T) (p : Prims)
    (now : Nat) (v : T) (st : StoreState T) :
    getSnapshot (setStateCommit opts p now v st) = v ∧
      (setStateCommit opts p now v st).memoryCache
        = some (buildStoredData opts now v) ∧
      getItem (setStateCommit opts p now v st).storage opts.key
        = some (encodeEntry opts p (buildStoredData opts now v)).1 :=
  ⟨rfl, rfl, getItem_setItem _ _ _⟩

/-- Running the segments of one `setState` sequentially from a state gives
exactly the state `setState` itself produces: the segment decomposition is
faithful to the operation. -/
theorem runSegs_setStateSegs {T : Type} (opts : StoreOptions T) (p : Prims)
    (now : Nat) (v : T) (st : StoreState T) :
    runSegs (setStateSegs opts p now v) st = (setState opts p now st v).1 := by
  unfold runSegs setStateSegs setState setStateCommit encodeEntry
  by_cases h :
      validateDataSize opts (opts.serialize (buildStoredData opts now v)) <;>
    simp [h]

/-- Appending the second operation after the first is always one of the
admissible schedules. -/
theorem mem_interleavings_left {α : Type} :
    ∀ xs ys : List α, (xs ++ ys) ∈ interleavings xs ys := by
  intro xs
  induction xs with
  | nil =>
    intro ys
    simp [interleavings]
  | cons x xs ih =>
    intro ys
    cases ys with
    | nil => simp [interleavings]
    | cons y ys =>
      have h := ih (y :: ys)
      unfold interleavings
      exact List.mem_append_left _ (List.mem_map_of_mem _ h)

/-- C9: for any event-loop schedule of two overlapping in-range `setState`
calls on the same instance — any order-preserving merge of their
synchronous segments — the final state is, in full, the committed state of
exactly one of the two writes: snapshot, memory shadow and backend entry
all come from that single write, never a mixture and never neither. -/
theorem c9_overlapping_writes_untorn {T : Type} (opts : StoreOptions T)
    (p : Prims) (now1 now2 : Nat) (st : StoreState T) (v1 v2 : T)
    (l : List (Seg T))
    (h1 : validateDataSize opts
      (opts.serialize (buildStoredData opts now1 v1)) = true)
    (h2 : validateDataSize opts
      (opts.serialize (buildStoredData opts now2 v2)) = true)
    (hl : l ∈ interleavings (setStateSegs opts p now1 v1)
      (setStateSegs opts p now2 v2)) :
    (getSnapshot (runSegs l st) = v1 ∧
        (runSegs l st).memoryCache = some (buildStoredData opts now1 v1) ∧
        getItem (runSegs l st).storage opts.key
          = some (encodeEntry opts p (buildStoredData opts now1 v1)).1) ∨
      (getSnapshot (runSegs l st) = v2 ∧
        (runSegs l st).memoryCache = some (buildStoredData opts now2 v2) ∧
        getItem (runSegs l st).storage opts.key
          = some (encodeEntry opts p (buildStoredData opts now2 v2)).1) := by
  unfold setStateSegs at hl
  rw [if_pos h1, if_pos h2] at hl
  simp only [interleavings] at hl
  fin_cases hl <;>
    simp only [runSegs, List.foldl, id] <;>
    first
      | exact Or.inl (setStateCommit_props opts p now1 v1 _)
      | exact Or.inr (setStateCommit_props opts p now2 v2 _)

/-- Witness for C9: the schedule running the first write's segments before
the second's, over `loadOpts`, ends in a state that is wholly one of the
two writes. -/
theorem c9_overlapping_writes_untorn_witness :
    (getSnapshot (runSegs (setStateSegs loadOpts idPrims 0 1 ++
          setStateSegs loadOpts idPrims 0 2) emptyState) = 1 ∧
        (runSegs (setStateSegs loadOpts idPrims 0 1 ++
          setStateSegs loadOpts idPrims 0 2) emptyState).memoryCache
          = some (buildStoredData loadOpts 0 1) ∧
        getItem (runSegs (setStateSegs loadOpts idPrims 0 1 ++
          setStateSegs loadOpts idPrims 0 2) emptyState).storage loadOpts.key
          = some (encodeEntry loadOpts idPrims
              (buildStoredData loadOpts 0 1)).1) ∨
      (getSnapshot (runSegs (setStateSegs loadOpts idPrims 0 1 ++
          setStateSegs loadOpts idPrims 0 2) emptyState) = 2 ∧
        (runSegs (setStateSegs loadOpts idPrims 0 1 ++
          setStateSegs loadOpts idPrims 0 2) emptyState).memoryCache
          = some (buildStoredData loadOpts 0 2) ∧
        getItem (runSegs (setStateSegs loadOpts idPrims 0 1 ++
          setStateSegs loadOpts idPrims 0 2) emptyState).storage loadOpts.key
          = some (encodeEntry loadOpts idPrims
              (buildStoredData loadOpts 0 2)).1) :=
  c9_overlapping_writes_untorn loadOpts idPrims 0 0 emptyState 1 2 _
    (by decide) (by decide) (mem_interleavings_left _ _)

/-- C10: with integrity validation enabled, an entry that deserializes
without a hash field skips the integrity comparison entirely — the load
proceeds to the freshness policy exactly as for a valid entry — and the
integrity error can arise only when the parsed entry carries a (truthy)
hash that differs from the recomputed digest of its value. -/
theorem c10_absent_hash_skips_validation {T : Type} (opts : StoreOptions T)
    (p : Prims) (now : Nat) (st : StoreState T) (stored d1 d2 : String)
    (e1 e2 : List Err) (parsed : StoredData T)
    (hmc : st.memoryCache = none)
    (hget : getItem st.storage opts.key = some stored)
    (h1 : decryptData opts p stored = (d1, e1))
    (h2 : decompressData opts p d1 = (d2, e2))
    (h3 : opts.deserialize d2 = some parsed)
    (hvo : opts.validateOnLoad = true) :
    (parsed.hash = none →
        getAsyncSnapshotBody opts p now st =
          (Except.ok (applyFreshness opts now st parsed), e1 ++ e2)) ∧
      (∀ errs, getAsyncSnapshotBody opts p now st =
          (Except.error LoadFault.integrityFailed, errs) →
        ∃ h, parsed.hash = some h ∧ h ≠ "" ∧
          opts.computeHash parsed.value ≠ h) := by
  constructor
  · intro hh
    have h4 : integrityFails opts parsed = false := by
      unfold integrityFails
      rw [hh]
      simp
    unfold getAsyncSnapshotBody loadFromStorage
    rw [hmc, hget]
    simp [h1, h2, h3, h4]
  · intro errs herr
    by_cases h4 : integrityFails opts parsed = true
    · unfold integrityFails at h4
      rw [hvo] at h4
      cases hh : parsed.hash with
      | none => rw [hh] at h4; simp at h4
      | some h =>
        rw [hh] at h4
        simp at h4
        exact ⟨h, rfl, h4.1, h4.2⟩
    · rw [Bool.not_eq_true] at h4
      have hbody : getAsyncSnapshotBody opts p now st =
          (Except.ok (applyFreshness opts now st parsed), e1 ++ e2) := by
        unfold getAsyncSnapshotBody loadFromStorage
        rw [hmc, hget]
        simp [h1, h2, h3, h4]
      rw [hbody] at herr
      simp at herr

/-- Witness for C10: loading the hashless `sampleEntry` with validation
enabled proceeds straight to the freshness policy with no error. -/
theorem c10_absent_hash_skips_validation_witness :
    getAsyncSnapshotBody loadOpts idPrims 5 loadState =
      (Except.ok (applyFreshness loadOpts 5 loadState sampleEntry), []) :=
  (c10_absent_hash_skips_validation loadOpts idPrims 5 loadState "fresh"
    "fresh" "fresh" [] [] sampleEntry rfl (by decide) rfl rfl rfl rfl).1 rfl

end ClientCache
